import Mathlib

/-!
Shallow embedding of the cagario simulation engine (src/agario/game.py and
src/agario/terminal.py) and verification of its specification claims.

Python values are modelled faithfully:
* `Vector2` objects have nullable integer components (`V2`); a `Vector2`
  instance is always truthy in Python (it defines neither an explicit boolean
  conversion nor a length), which `truthyV2` records.
* Fallible Python code (arithmetic on a missing coordinate raises `TypeError`,
  indexing past both ends of a list raises `IndexError`, constructing an
  invalid `Size` raises `ValueError`) is modelled with `Except Unit`.
* Python list indexing with a negative index wraps to the end of the list
  (`pyIndex`); Python `int(x / 2)` on integers truncates toward zero
  (`Int.tdiv`).
-/

/-- Nullable integer, a Python int-or-None field. -/
abbrev OInt := Option Int

/-- The state of a `Vector2` object: both coordinates are nullable, as in
`Vector2(x=None, y=None)`. -/
abbrev V2 := OInt × OInt

/-- Truthiness of a `Vector2` instance.  The class defines no boolean
conversion and no length, so every instance is truthy in Python, even
`Vector2(None, None)`. -/
def truthyV2 (_ : V2) : Bool := true

/-- `Vector2.__add__`: adds componentwise; adding `None` raises `TypeError`,
modelled as `Except.error`. -/
def pyAddV (v w : V2) : Except Unit V2 :=
  match v.1, w.1, v.2, w.2 with
  | some a, some c, some b, some d => .ok (some (a + c), some (b + d))
  | _, _, _, _ => .error ()

/-- Movement directions (`Dir` enum in terminal.py); each carries a `Vector2`
step value. -/
inductive Dir where
  | Left
  | Right
  | Up
  | Down
deriving DecidableEq

/-- The `Vector2` value attached to each `Dir` member:
Left = (-2, 0), Right = (2, 0), Up = (0, -1), Down = (0, 1). -/
def Dir.value : Dir → Int × Int
  | .Left => (-2, 0)
  | .Right => (2, 0)
  | .Up => (0, -1)
  | .Down => (0, 1)

/-- Axis-aligned rectangle (`Rect` in terminal.py). -/
structure Rect where
  x1 : Int
  y1 : Int
  x2 : Int
  y2 : Int
deriving DecidableEq

/-- `Rect.get_center`: returns `Vector2(x1 + (x2 - x1), y1 + (y2 - y1))`,
kept as the source writes it. -/
def Rect.get_center (r : Rect) : V2 :=
  (some (r.x1 + (r.x2 - r.x1)), some (r.y1 + (r.y2 - r.y1)))

/-- `Rect.get_pos` delegates to `get_center`. -/
def Rect.get_pos (r : Rect) : V2 := r.get_center

/-- `Rect.get_width = abs(x2 - x1) + 1`. -/
def Rect.get_width (r : Rect) : Int := |r.x2 - r.x1| + 1

/-- `Rect.get_height = abs(y2 - y1) + 1`. -/
def Rect.get_height (r : Rect) : Int := |r.y2 - r.y1| + 1

/-- Modelled from the spec: the midpoint of a rectangle,
`((x1 + x2) / 2, (y1 + y2) / 2)`, which section 3 of the spec calls the
center.  Used only to state what `Rect.get_center` was meant to return. -/
def Rect.midpoint_spec (r : Rect) : Int × Int :=
  ((r.x1 + r.x2) / 2, (r.y1 + r.y2) / 2)

/-- Python whitespace, the characters removed by `str.strip()` with no
argument. -/
def pyIsSpace (c : Char) : Bool :=
  c = ' ' || c = '\t' || c = '\n' || c = '\r' || c = '\x0b' || c = '\x0c'

/-- Python list indexing `l[i]`: a nonnegative index reads from the front, a
negative index within `-len .. -1` wraps to the end, anything else raises
`IndexError` (`none` here). -/
def pyIndex {α : Type} (l : List α) (i : Int) : Option α :=
  if 0 ≤ i then l.get? i.toNat
  else if (-i).toNat ≤ l.length then l.get? (l.length - (-i).toNat)
  else none

/-- Terrain data of `Map`: the list of row strings, each row a list of
characters. -/
abbrev MapData := List (List Char)

/-- `Map.intersectd_with(pos=...)`: reads `data[pos.y][pos.x]`, strips the
single character and tests truthiness; an `IndexError` from either indexing
step yields `True`. -/
def intersectd_with_pos (data : MapData) (x y : Int) : Bool :=
  match pyIndex data y with
  | none => true
  | some row =>
    match pyIndex row x with
    | none => true
    | some c => !(pyIsSpace c)

/-- `Map.intersectd_with(rect=...)`: true when any of the four corners
(left-bottom, left-top, right-bottom, right-top) intersects. -/
def intersectd_with_rect (data : MapData) (r : Rect) : Bool :=
  intersectd_with_pos data r.x1 r.y1 ||
  intersectd_with_pos data r.x1 r.y2 ||
  intersectd_with_pos data r.x2 r.y1 ||
  intersectd_with_pos data r.x2 r.y2

/-- Python `str.strip()` on a row: drop whitespace from both ends. -/
def stripLine (l : List Char) : List Char :=
  ((l.dropWhile pyIsSpace).reverse.dropWhile pyIsSpace).reverse

/-- `Map.load`: skips empty lines and appends each remaining line stripped of
surrounding whitespace. -/
def load_map (lines : List (List Char)) : MapData :=
  (lines.filter (fun l => !l.isEmpty)).map stripLine

/-- Modelled from the spec: a point lies inside map bounds when its row and
column indices are nonnegative and within the data.  Used only to state the
out-of-bounds part of the intersection claim. -/
def inBoundsSpec (data : MapData) (x y : Int) : Prop :=
  0 ≤ y ∧ y < data.length ∧ 0 ≤ x ∧
  ∀ row, pyIndex data y = some row → x < row.length

/-- Terminal colors (`Color` enum); `Random` is the sentinel re-drawn by
`set_color`. -/
inductive Color where
  | Default
  | Black
  | Red
  | Green
  | Yellow
  | Blue
  | Magenta
  | Cyan
  | White
  | Random
deriving DecidableEq

/-- Collision transition states (`CollisionState` enum in game.py). -/
inductive CollisionState where
  | NotCollided
  | Entered
  | BeingCollided
  | Exited
deriving DecidableEq

/-- Which collision callback an entity received. -/
inductive Cb where
  | entered
  | exited
deriving DecidableEq

/-- The concrete class of a game object, deciding which collision callbacks
run (`Player` and `Enemy` in game.py). -/
inductive EKind where
  | player
  | enemy
deriving DecidableEq

/-- State of a `GameObject`: `eid` stands for the Python object identity
`id(self)` used as the key of the collision dictionary. -/
structure Entity where
  eid : Nat
  kind : EKind
  pos : V2
  prev_pos : Option V2
  direction : Option Dir
  prev_direction : Option Dir
  fg : Option Color
  bg : Option Color
  size : Int
  collisions : List (Nat × Bool)
  being_destroyed : Bool
deriving DecidableEq

/-- `dict.get(k)`: `none` when the key is absent. -/
def dget (l : List (Nat × Bool)) (k : Nat) : Option Bool :=
  (l.find? (fun p => p.1 = k)).map (fun p => p.2)

/-- `dict.update({k: v})`: replaces any binding of `k` with `v`. -/
def dset (l : List (Nat × Bool)) (k : Nat) (v : Bool) : List (Nat × Bool) :=
  (k, v) :: l.filter (fun p => p.1 ≠ k)

/-- Truthiness of `dict.get`'s result: `None` and `False` are falsy. -/
def truthyOB : Option Bool → Bool
  | none => false
  | some b => b

/-- The valid members of the `Size` enum: odd integers from `MinSize = 1` to
`MaxSize = 19`. -/
def validSize (v : Int) : Prop := 1 ≤ v ∧ v ≤ 19 ∧ v % 2 = 1

instance (v : Int) : Decidable (validSize v) := by
  unfold validSize; infer_instance

/-- `GameObject.set_size`: `Size(value)` raises `ValueError` when the value is
not a member of the enum. -/
def set_size (e : Entity) (v : Int) : Except Unit Entity :=
  if validSize v then .ok { e with size := v } else .error ()

/-- `GameObject.expand`: `set_size(min(size + 2, MaxSize))`. -/
def expand (e : Entity) : Except Unit Entity :=
  set_size e (min (e.size + 2) 19)

/-- `GameObject.shrink`: `set_size(max(size - 2, MinSize))`. -/
def shrink (e : Entity) : Except Unit Entity :=
  set_size e (max (e.size - 2) 1)

/-- `Renderable.set_color`: stores both the foreground and the background
argument (an omitted argument stores `None`).  The branch re-drawing
`Color.Random` from the process RNG is not modelled: every collision callback
passes a concrete color, so no claim reaches it. -/
def set_color (fg bg : Option Color) (e : Entity) : Entity :=
  { e with fg := fg, bg := bg }

/-- `GameObject.destroy`: marks the soft-delete flag. -/
def destroy (e : Entity) : Entity := { e with being_destroyed := true }

/-- `on_collision_entered`, dispatched on the concrete class: `Player` turns
green and expands (the enum constructor inside `expand` can raise), `Enemy`
turns its foreground green. -/
def onCollisionEntered (e : Entity) : Except Unit Entity :=
  match e.kind with
  | .player => expand (set_color (some .Green) (some .Green) e)
  | .enemy => .ok (set_color (some .Green) none e)

/-- `on_collision_exited`, dispatched on the concrete class: `Player` turns
back red, `Enemy` turns blue and is destroyed. -/
def onCollisionExited (e : Entity) : Entity :=
  match e.kind with
  | .player => set_color (some .Red) (some .Red) e
  | .enemy => destroy (set_color (some .Blue) none e)

/-- `Renderable.get_rect`: square of radius `int((size - 1) / 2)` around the
position; arithmetic on a `None` coordinate raises `TypeError`. -/
def get_rect (e : Entity) : Except Unit Rect :=
  match e.pos.1, e.pos.2 with
  | some px, some py =>
    let d := Int.tdiv (e.size - 1) 2
    .ok { x1 := px - d, y1 := py - d, x2 := px + d, y2 := py + d }
  | _, _ => .error ()

/-- `Renderable.make_trajectory` on an explicit rectangle: one edge is moved
by subtracting the direction's step component, exactly as the source writes
it (`x2 - Dir.Left.value.x`, and so on). -/
def make_trajectory (d : Option Dir) (r : Rect) : Rect :=
  match d with
  | some .Left => { r with x2 := r.x2 - Dir.Left.value.1 }
  | some .Right => { r with x1 := r.x1 - Dir.Right.value.1 }
  | some .Up => { r with y1 := r.y1 - Dir.Up.value.2 }
  | some .Down => { r with y2 := r.y2 - Dir.Down.value.2 }
  | none => r

/-- `make_trajectory()` with no rectangle argument: builds the rectangle with
`get_rect` first. -/
def make_trajectory_self (e : Entity) : Except Unit Rect := do
  let r ← get_rect e
  .ok (make_trajectory e.direction r)

/-- What `collide` reads from either argument: `get_pos`, `get_width` and
`get_height`. -/
structure Collidable where
  px : OInt
  py : OInt
  w : Int
  h : Int

/-- The `collide` view of a trajectory `Rect` (its `get_pos` is the
`get_center` corner). -/
def ofRect (r : Rect) : Collidable :=
  ⟨r.get_pos.1, r.get_pos.2, r.get_width, r.get_height⟩

/-- The `collide` view of a `GameObject` (width and height are the size enum
value). -/
def ofEntity (e : Entity) : Collidable :=
  ⟨e.pos.1, e.pos.2, e.size, e.size⟩

/-- `collide(lhs, rhs)` from game.py.  The `if not pos1 or not pos2` guard is
kept as written: both positions are `Vector2` instances and therefore always
truthy, so the guard can never return early.  Subtracting a `None` coordinate
raises `TypeError`; `int(x / 2)` truncates toward zero. -/
def collide (lhs rhs : Collidable) : Except Unit Bool :=
  if truthyV2 (lhs.px, lhs.py) = false || truthyV2 (rhs.px, rhs.py) = false then
    .ok false
  else
    match lhs.px, rhs.px, lhs.py, rhs.py with
    | some x1, some x2, some y1, some y2 =>
      let xdistance := |x1 - x2|
      let width := Int.tdiv (lhs.w + rhs.w) 2
      let ydistance := |y1 - y2|
      let height := Int.tdiv (lhs.h + rhs.h) 2
      if xdistance < width ∧ ydistance < height then .ok true else .ok false
    | _, _, _, _ => .error ()

/-- The overlap test computed inside `check_collision`:
`collide(player.make_trajectory(), other)`. -/
def collideOf (player other : Entity) : Except Unit Bool := do
  let t ← make_trajectory_self player
  collide (ofRect t) (ofEntity other)

/-- The branch structure of `check_collision` once the stored flag and the new
overlap are known: updates the player's dictionary, runs the callbacks on both
entities and returns the transition, together with the list of callback
invocations `(entity id, callback)` in execution order. -/
def check_collision_core (player other : Entity) (was : Option Bool)
    (being : Bool) :
    Except Unit (Entity × Entity × CollisionState × List (Nat × Cb)) :=
  if truthyOB was = false ∧ being = true then do
    let p := { player with collisions := dset player.collisions other.eid being }
    let p ← onCollisionEntered p
    let o ← onCollisionEntered other
    .ok (p, o, .Entered, [(player.eid, .entered), (other.eid, .entered)])
  else if truthyOB was = true ∧ being = false then
    let p := { player with collisions := dset player.collisions other.eid being }
    let p := onCollisionExited p
    let o := onCollisionExited other
    .ok (p, o, .Exited, [(player.eid, .exited), (other.eid, .exited)])
  else
    .ok (player, other, if being then .BeingCollided else .NotCollided, [])

/-- `check_collision(player, other)` from game.py. -/
def check_collision (player other : Entity) :
    Except Unit (Entity × Entity × CollisionState × List (Nat × Cb)) := do
  let was := dget player.collisions other.eid
  let being ← collideOf player other
  check_collision_core player other was being

/-- `Renderable.move(direction, pos)`: records the previous direction, and for
a supplied direction saves the position and adds the direction's step; for a
supplied target position saves the position and teleports. -/
def move (e : Entity) (direction : Option Dir) (pos : Option V2) :
    Except Unit Entity := do
  let e1 := { e with prev_direction := e.direction }
  let e2 ← match direction with
    | some d => do
      let p ← pyAddV e1.pos (some d.value.1, some d.value.2)
      .ok { e1 with direction := some d, prev_pos := some e1.pos, pos := p }
    | none => .ok e1
  match pos with
  | some p => .ok { e2 with prev_pos := some e2.pos, pos := p }
  | none => .ok e2

/-- `Renderable.render` with `check_intersect=False`: the early `if not pos`
return (dead, positions are truthy `Vector2` objects), the rectangle and
trajectory computation (the rectangle build can raise on a `None` coordinate),
then cell emission only — the entity state is unchanged and there is no
trajectory test and no further recursion. -/
def renderNoCheck (m : MapData) (e : Entity) : Except Unit Entity :=
  if truthyV2 e.pos = false then .ok e
  else do
    let r ← get_rect e
    let _trajectory := make_trajectory e.direction r
    let _hit := m
    .ok e

/-- `Renderable.render` with `check_intersect=True` (the default): when the
trajectory rectangle intersects the map, the position is rolled back to the
previous position when one exists and the object is rendered once more with
checking disabled.  The second component counts how many `render` invocations
ran. -/
def renderChecked (m : MapData) (e : Entity) : Except Unit (Entity × Nat) :=
  if truthyV2 e.pos = false then .ok (e, 1)
  else do
    let r ← get_rect e
    let trajectory := make_trajectory e.direction r
    if intersectd_with_rect m trajectory then do
      let e1 := { e with pos := match e.prev_pos with
                                | some pv => pv
                                | none => e.pos }
      let e2 ← renderNoCheck m e1
      .ok (e2, 2)
    else
      .ok (e, 1)

/-- State owned by the simulation loop: the player and the active entity
lists. -/
structure GameState where
  player : Entity
  enemies : List Entity
  other_players : List Entity
deriving DecidableEq

/-- The sweep at the top of `Game.update`: drop enemies whose destroyed flag
is set. -/
def prune (s : GameState) : GameState :=
  { s with enemies := s.enemies.filter (fun e => !e.being_destroyed) }

/-- `render_objects`: render each object in order with checking enabled. -/
def renderAll (m : MapData) : List Entity → Except Unit (List Entity)
  | [] => .ok []
  | e :: es => do
    let p ← renderChecked m e
    let es' ← renderAll m es
    .ok (p.1 :: es')

/-- `Terminal.update`: renders the map (no entity state change), the enemies
and then the player. -/
def renderPhase (m : MapData) (s : GameState) : Except Unit GameState := do
  let es ← renderAll m s.enemies
  let p ← renderChecked m s.player
  .ok { s with enemies := es, player := p.1 }

/-- The `for` loop of `Game.update_collisions`: runs `check_collision` of the
player against each entity in order, threading the player's state. -/
def collideAll (p : Entity) : List Entity → Except Unit (Entity × List Entity)
  | [] => .ok (p, [])
  | e :: es => do
    let r ← check_collision p e
    let rest ← collideAll r.1 es
    .ok (rest.1, r.2.1 :: rest.2)

/-- `Game.update_collisions`: player versus every enemy, then player versus
every other player. -/
def update_collisions (s : GameState) : Except Unit GameState := do
  let r1 ← collideAll s.player s.enemies
  let r2 ← collideAll r1.1 s.other_players
  .ok { player := r2.1, enemies := r1.2, other_players := r2.2 }

/-- `Game.update`, one tick: prune destroyed enemies first, then the render
pass, then the collision pass.  Nothing runs after the collision pass. -/
def update (m : MapData) (s : GameState) : Except Unit GameState := do
  let s2 ← renderPhase m (prune s)
  update_collisions s2

/-- The identities of a list of entities. -/
def eidsOf (l : List Entity) : List Nat := l.map (fun e => e.eid)

/-- A resize request, as issued by the key handlers. -/
inductive ResizeOp where
  | grow
  | shrinkStep
deriving DecidableEq

/-- Run a finite sequence of expand and shrink calls. -/
def applyResize : List ResizeOp → Entity → Except Unit Entity
  | [], e => .ok e
  | op :: ops, e => do
    let e' ← (match op with
              | ResizeOp.grow => expand e
              | ResizeOp.shrinkStep => shrink e)
    applyResize ops e'

/-- Modelled from the spec: the transition table of section 4.3, as a function
of the previous stored flag's truthiness and the new overlap. -/
def transitionSpec (was being : Bool) : CollisionState :=
  if !was && being then .Entered
  else if was && !being then .Exited
  else if being then .BeingCollided
  else .NotCollided

/-- Modelled from the spec: the callbacks the transition table fires, exactly
once on each of the two entities on an edge and none otherwise. -/
def callbacksSpec (was being : Bool) (pid oid : Nat) : List (Nat × Cb) :=
  if !was && being then [(pid, .entered), (oid, .entered)]
  else if was && !being then [(pid, .exited), (oid, .exited)]
  else []

/-- Modelled from the spec: the stored flag after the tick — set true on
Entered, set false on Exited, untouched otherwise. -/
def storedFlagSpec (was being : Bool) (old : Option Bool) : Option Bool :=
  if !was && being then some true
  else if was && !being then some false
  else old

/-- Witness player for the collision claims. -/
def cP : Entity :=
  { eid := 1, kind := .player, pos := (some 10, some 10), prev_pos := none,
    direction := none, prev_direction := none, fg := some .Red,
    bg := some .Red, size := 1, collisions := [], being_destroyed := false }

/-- Witness enemy overlapping `cP`. -/
def cE : Entity :=
  { eid := 2, kind := .enemy, pos := (some 10, some 10), prev_pos := none,
    direction := none, prev_direction := none, fg := some .Yellow, bg := none,
    size := 1, collisions := [], being_destroyed := false }

/-- Witness player after `check_collision cP cE`. -/
def cP1 : Entity :=
  { cP with
    collisions := [(2, true)], fg := some .Green, bg := some .Green,
    size := 3 }

/-- Witness enemy after `check_collision cP cE`. -/
def cE1 : Entity := { cE with fg := some .Green, bg := none }

/-- Entity with a set position, the left operand of the missing-position
collide call. -/
def c9a : Entity :=
  { eid := 3, kind := .player, pos := (some 0, some 0), prev_pos := none,
    direction := none, prev_direction := none, fg := some .Red,
    bg := some .Red, size := 1, collisions := [], being_destroyed := false }

/-- Entity created without coordinates: its position is `Vector2(None, None)`. -/
def c9b : Entity :=
  { eid := 4, kind := .enemy, pos := (none, none), prev_pos := none,
    direction := none, prev_direction := none, fg := some .Yellow, bg := none,
    size := 1, collisions := [], being_destroyed := false }

/-- Witness entity for the movement scenario, a player at (10, 10). -/
def mvA : Entity :=
  { eid := 5, kind := .player, pos := (some 10, some 10), prev_pos := none,
    direction := none, prev_direction := none, fg := some .Red,
    bg := some .Red, size := 1, collisions := [], being_destroyed := false }

/-- `mvA` after moving right once: position (12, 10). -/
def mvB : Entity :=
  { mvA with
    prev_direction := none, direction := some .Right,
    prev_pos := some (some 10, some 10), pos := (some 12, some 10) }

/-- `mvB` after moving up once: position (12, 9). -/
def mvC : Entity :=
  { mvB with
    prev_direction := some .Right, direction := some .Up,
    prev_pos := some (some 12, some 10), pos := (some 12, some 9) }

/-- A one-cell blocking map for the rollback witness. -/
def rMap : MapData := [['#']]

/-- Witness entity standing on blocking terrain with a previous position. -/
def rE : Entity :=
  { eid := 6, kind := .enemy, pos := (some 0, some 0),
    prev_pos := some (some 5, some 5), direction := none,
    prev_direction := none, fg := some .Yellow, bg := none, size := 1,
    collisions := [], being_destroyed := false }

/-- Witness player for the sweep scenario: its stored flag for enemy 2 is
true from an earlier tick. -/
def gP : Entity :=
  { eid := 1, kind := .player, pos := (some 10, some 10), prev_pos := none,
    direction := none, prev_direction := none, fg := some .Red,
    bg := some .Red, size := 1, collisions := [(2, true)],
    being_destroyed := false }

/-- Witness enemy for the sweep scenario, now far from the player. -/
def gE : Entity :=
  { eid := 2, kind := .enemy, pos := (some 50, some 50), prev_pos := none,
    direction := none, prev_direction := none, fg := some .Yellow, bg := none,
    size := 1, collisions := [], being_destroyed := false }

/-- The enemy after its Exited transition: blue and destroyed. -/
def gE1 : Entity :=
  { gE with
    fg := some .Blue, bg := none, being_destroyed := true }

/-- The player after the Exited transition: flag stored false. -/
def gP1 : Entity := { gP with collisions := [(2, false)] }

/-- Tick N input state of the sweep scenario. -/
def gS : GameState := ⟨gP, [gE], []⟩

/-- State after tick N: the enemy exited, is destroyed, and is still in the
active set. -/
def gS1 : GameState := ⟨gP1, [gE1], []⟩

/-- State after tick N+1: the destroyed enemy was swept at the start. -/
def gS2 : GameState := ⟨gP1, [], []⟩

lemma exceptBind_ok {α β : Type} {x : Except Unit α} {f : α → Except Unit β}
    {r : β} (h : (x >>= f) = .ok r) : ∃ a, x = .ok a ∧ f a = .ok r := by
  cases x with
  | error e => exact absurd h (fun hh => Except.noConfusion hh)
  | ok a => exact ⟨a, rfl, h⟩

lemma dget_dset_self (l : List (Nat × Bool)) (k : Nat) (v : Bool) :
    dget (dset l k v) k = some v := by
  simp [dget, dset, List.find?]

lemma dget_filter_ne (l : List (Nat × Bool)) (k k' : Nat) (h : k' ≠ k) :
    dget (l.filter (fun p => p.1 ≠ k)) k' = dget l k' := by
  induction l with
  | nil => rfl
  | cons p t ih =>
    by_cases hp : p.1 = k
    · rw [List.filter_cons_of_neg (by simp [hp])]
      rw [ih]
      unfold dget
      rw [List.find?_cons_of_neg _ (by simp [hp, Ne.symm h])]
    · rw [List.filter_cons_of_pos (by simp [hp])]
      unfold dget
      by_cases hp' : p.1 = k'
      · rw [List.find?_cons_of_pos _ (by simp [hp']),
          List.find?_cons_of_pos _ (by simp [hp'])]
      · rw [List.find?_cons_of_neg _ (by simp [hp']),
          List.find?_cons_of_neg _ (by simp [hp'])]
        exact ih

lemma dget_dset_other (l : List (Nat × Bool)) (k k' : Nat) (v : Bool)
    (h : k' ≠ k) : dget (dset l k v) k' = dget l k' := by
  unfold dset
  rw [show dget ((k, v) :: l.filter (fun p => p.1 ≠ k)) k'
      = dget (l.filter (fun p => p.1 ≠ k)) k' from by
    unfold dget
    rw [List.find?_cons_of_neg _ (by simp [Ne.symm h])]]
  exact dget_filter_ne l k k' h

/-- C2 counterexample: with direction Left and bounding rectangle
(0, 0, 4, 4), `make_trajectory` yields (0, 0, 6, 4) — the right edge is
extended outward by 2 — and not (0, 0, 2, 4), the right edge shrunk inward by
2 as the claim states. -/
theorem make_trajectory_left_cex :
    make_trajectory (some .Left) ⟨0, 0, 4, 4⟩ = ⟨0, 0, 6, 4⟩ ∧
    make_trajectory (some .Left) ⟨0, 0, 4, 4⟩ ≠ ⟨0, 0, 2, 4⟩ := by
  constructor
  · rfl
  · intro h
    exact absurd h (by decide)

/-- C2 amended: for every bounding rectangle, `make_trajectory` moves exactly
one coordinate: moving left extends the right edge outward by the horizontal
step (x2 + 2); moving right extends the left edge outward by 2 (x1 - 2);
moving up moves the y1 edge inward by the vertical step (y1 + 1); moving down
moves the y2 edge inward by 1 (y2 - 1); with no active direction the bounding
rectangle is returned unchanged. -/
theorem make_trajectory_edge_shifts (r : Rect) :
    make_trajectory (some .Left) r = { r with x2 := r.x2 + 2 } ∧
    make_trajectory (some .Right) r = { r with x1 := r.x1 - 2 } ∧
    make_trajectory (some .Up) r = { r with y1 := r.y1 + 1 } ∧
    make_trajectory (some .Down) r = { r with y2 := r.y2 - 1 } ∧
    make_trajectory none r = r := by
  refine ⟨?_, ?_, ?_, ?_, rfl⟩ <;>
    simp [make_trajectory, Dir.value]

/-- C4: on the rectangle (9, 9, 11, 11) built by `get_rect` for an entity at
(10, 10) of size 3, `get_width` and `get_height` are 3 as claimed, but
`get_center` (and so `get_pos`) returns the right-top corner (11, 11), not the
midpoint (10, 10): in general `get_center` computes
(x1 + (x2 - x1), y1 + (y2 - y1)) = (x2, y2). -/
theorem get_center_corner_bug :
    (∀ r : Rect, r.get_center = (some r.x2, some r.y2)) ∧
    get_rect { cP with size := 3 } = .ok ⟨9, 9, 11, 11⟩ ∧
    Rect.get_width ⟨9, 9, 11, 11⟩ = 3 ∧
    Rect.get_height ⟨9, 9, 11, 11⟩ = 3 ∧
    Rect.midpoint_spec ⟨9, 9, 11, 11⟩ = (10, 10) ∧
    Rect.get_pos ⟨9, 9, 11, 11⟩ = (some 11, some 11) ∧
    Rect.get_pos ⟨9, 9, 11, 11⟩ ≠ (some 10, some 10) := by
  refine ⟨?_, rfl, by decide, by decide, by decide, by decide, by decide⟩
  intro r
  simp only [Rect.get_center, Prod.mk.injEq, Option.some.injEq]
  omega

/-- C9: `collide` on a pair where the second object was created without
coordinates (`Vector2(None, None)`) raises `TypeError` instead of returning
false: the `if not pos1 or not pos2` guard cannot fire because a `Vector2`
instance is always truthy, and the subtraction of `None` then raises. -/
theorem collide_raises_on_missing_position :
    truthyV2 (none, none) = true ∧
    (ofEntity c9b).px = none ∧
    collide (ofEntity c9a) (ofEntity c9b) = .error () ∧
    collide (ofEntity c9a) (ofEntity c9b) ≠ .ok false := by
  refine ⟨rfl, rfl, rfl, ?_⟩
  intro h
  rw [show collide (ofEntity c9a) (ofEntity c9b) = .error () from rfl] at h
  exact Except.noConfusion h

/-- C6: for an entity whose position is set, `move` with a direction records
the previous direction, saves the current position as the previous position,
sets the direction and adds the direction's step vector to the position, with
horizontal steps of 2 units and vertical steps of 1 unit. -/
theorem move_records_and_steps (e : Entity) (d : Dir) (a b : Int)
    (hp : e.pos = (some a, some b)) :
    move e (some d) none = .ok
      { e with
        prev_direction := e.direction, direction := some d,
        prev_pos := some e.pos,
        pos := (some (a + d.value.1), some (b + d.value.2)) } ∧
    Dir.Left.value = (-2, 0) ∧ Dir.Right.value = (2, 0) ∧
    Dir.Up.value = (0, -1) ∧ Dir.Down.value = (0, 1) := by
  refine ⟨?_, rfl, rfl, rfl, rfl⟩
  simp only [move, pyAddV, hp]
  rfl

/-- C6 witness: the player at (10, 10) moving right once reaches (12, 10), and
moving up once from there reaches (12, 9). -/
theorem move_scenario_right_then_up :
    move mvA (some .Right) none = .ok mvB ∧
    move mvB (some .Up) none = .ok mvC ∧
    mvB.pos = (some 12, some 10) ∧ mvC.pos = (some 12, some 9) := by
  have h1 := (move_records_and_steps mvA .Right 10 10 rfl).1
  have h2 := (move_records_and_steps mvB .Up 12 10 rfl).1
  exact ⟨by rw [h1]; rfl, by rw [h2]; rfl, rfl, rfl⟩

lemma validSize_expand (v : Int) (h : validSize v) :
    validSize (min (v + 2) 19) := by
  unfold validSize at *; omega

lemma validSize_shrink (v : Int) (h : validSize v) :
    validSize (max (v - 2) 1) := by
  unfold validSize at *; omega

lemma applyResize_ok (ops : List ResizeOp) :
    ∀ e : Entity, validSize e.size →
      ∃ e', applyResize ops e = .ok e' ∧ validSize e'.size := by
  induction ops with
  | nil => exact fun e h => ⟨e, rfl, h⟩
  | cons op t ih =>
    intro e h
    cases op with
    | grow =>
      have hv := validSize_expand e.size h
      obtain ⟨e', he', hv'⟩ := ih { e with size := min (e.size + 2) 19 } hv
      refine ⟨e', ?_, hv'⟩
      show (expand e >>= applyResize t) = .ok e'
      rw [show expand e = .ok { e with size := min (e.size + 2) 19 } from by
        simp [expand, set_size, hv]]
      exact he'
    | shrinkStep =>
      have hv := validSize_shrink e.size h
      obtain ⟨e', he', hv'⟩ := ih { e with size := max (e.size - 2) 1 } hv
      refine ⟨e', ?_, hv'⟩
      show (shrink e >>= applyResize t) = .ok e'
      rw [show shrink e = .ok { e with size := max (e.size - 2) 1 } from by
        simp [shrink, set_size, hv]]
      exact he'

/-- C8: starting from a valid size, `expand` sets the size to
min(size + 2, 19) and `shrink` to max(size - 2, 1) without raising, and any
finite sequence of expand and shrink calls succeeds and keeps the size a valid
member of the odd Size enumeration, inside [1, 19]. -/
theorem resize_clamped_valid (ops : List ResizeOp) (e : Entity)
    (h : validSize e.size) :
    expand e = .ok { e with size := min (e.size + 2) 19 } ∧
    shrink e = .ok { e with size := max (e.size - 2) 1 } ∧
    ∃ e', applyResize ops e = .ok e' ∧
      validSize e'.size ∧ 1 ≤ e'.size ∧ e'.size ≤ 19 := by
  refine ⟨by simp [expand, set_size, validSize_expand e.size h],
    by simp [shrink, set_size, validSize_shrink e.size h], ?_⟩
  obtain ⟨e', he', hv'⟩ := applyResize_ok ops e h
  exact ⟨e', he', hv', hv'.1, hv'.2.1⟩

/-- C8 witness: two expands and a shrink from size 1 succeed and stay valid. -/
theorem resize_clamped_valid_example :
    expand cP = .ok { cP with size := min (cP.size + 2) 19 } ∧
    shrink cP = .ok { cP with size := max (cP.size - 2) 1 } ∧
    ∃ e', applyResize [.grow, .grow, .shrinkStep] cP = .ok e' ∧
      validSize e'.size ∧ 1 ≤ e'.size ∧ e'.size ≤ 19 :=
  resize_clamped_valid [.grow, .grow, .shrinkStep] cP (by decide)

lemma onEntered_fields (e e' : Entity) (h : onCollisionEntered e = .ok e') :
    e'.collisions = e.collisions ∧ e'.eid = e.eid ∧
    e'.being_destroyed = e.being_destroyed := by
  unfold onCollisionEntered at h
  split at h
  · unfold expand set_size at h
    split at h
    · rw [Except.ok.injEq] at h
      subst h
      exact ⟨rfl, rfl, rfl⟩
    · exact absurd h (fun hh => Except.noConfusion hh)
  · rw [Except.ok.injEq] at h
    subst h
    exact ⟨rfl, rfl, rfl⟩

lemma onExited_fields (e : Entity) :
    (onCollisionExited e).collisions = e.collisions ∧
    (onCollisionExited e).eid = e.eid := by
  unfold onCollisionExited
  split <;> exact ⟨rfl, rfl⟩

lemma collideOf_collisions_congr (p o : Entity) (c : List (Nat × Bool)) :
    collideOf p { o with collisions := c } = collideOf p o := rfl

lemma onEntered_collisions_congr (o o2 : Entity) (c : List (Nat × Bool))
    (h : onCollisionEntered o = .ok o2) :
    onCollisionEntered { o with collisions := c } =
      .ok { o2 with collisions := c } := by
  unfold onCollisionEntered at h ⊢
  rw [show ({ o with collisions := c } : Entity).kind = o.kind from rfl]
  split at h
  · rename_i hk
    rw [hk]
    unfold expand set_size at h ⊢
    split at h
    · rename_i hv
      rw [Except.ok.injEq] at h
      subst h
      rw [if_pos (by exact hv)]
      simp [hk, set_color]
    · exact absurd h (fun hh => Except.noConfusion hh)
  · rename_i hk
    rw [hk]
    rw [Except.ok.injEq] at h
    subst h
    simp [hk, set_color]

lemma onExited_collisions_congr (o : Entity) (c : List (Nat × Bool)) :
    onCollisionExited { o with collisions := c } =
      { onCollisionExited o with collisions := c } := by
  unfold onCollisionExited
  rw [show ({ o with collisions := c } : Entity).kind = o.kind from rfl]
  split
  · rename_i hk
    simp [hk, set_color]
  · rename_i hk
    simp [hk, set_color, destroy]

/-- C1: for every (player, other) pair whose overlap test evaluates (the
positions are set), `check_collision` realizes the transition table: stored
flag falsy and new overlap true gives Entered, stores true and fires
`on_collision_entered` exactly once on each of the two entities, in order;
stored flag truthy and new overlap false gives Exited, stores false and fires
`on_collision_exited` exactly once on each; otherwise BeingCollided or
NotCollided with no callback and the stored flag untouched — so a pair that
stays overlapping across consecutive ticks never re-fires Entered. -/
theorem check_collision_transition_table
    (p o p' o' : Entity) (res : CollisionState) (evs : List (Nat × Cb))
    (being : Bool)
    (hb : collideOf p o = .ok being)
    (h : check_collision p o = .ok (p', o', res, evs)) :
    res = transitionSpec (truthyOB (dget p.collisions o.eid)) being ∧
    evs = callbacksSpec (truthyOB (dget p.collisions o.eid)) being p.eid o.eid ∧
    dget p'.collisions o.eid =
      storedFlagSpec (truthyOB (dget p.collisions o.eid)) being
        (dget p.collisions o.eid) := by
  have h' : check_collision_core p o (dget p.collisions o.eid) being
      = .ok (p', o', res, evs) := by
    unfold check_collision at h
    rw [hb] at h
    exact h
  unfold check_collision_core at h'
  cases hw : truthyOB (dget p.collisions o.eid) <;> cases being <;>
    rw [hw] at h' <;> simp only [Bool.true_eq_false, Bool.false_eq_true,
      and_true, and_false, true_and, false_and, if_true, if_false,
      and_self, if_neg, ite_true, ite_false, reduceIte] at h'
  · -- was falsy, not overlapping: NotCollided
    rw [Except.ok.injEq, Prod.mk.injEq, Prod.mk.injEq, Prod.mk.injEq] at h'
    obtain ⟨hP, hO, hR, hE⟩ := h'
    subst hP hO hR hE
    exact ⟨rfl, rfl, rfl⟩
  · -- was falsy, overlapping: Entered
    obtain ⟨p2, hp2, h'⟩ := exceptBind_ok h'
    obtain ⟨o2, ho2, h'⟩ := exceptBind_ok h'
    rw [Except.ok.injEq, Prod.mk.injEq, Prod.mk.injEq, Prod.mk.injEq] at h'
    obtain ⟨hP, hO, hR, hE⟩ := h'
    subst hP hO hR hE
    refine ⟨rfl, rfl, ?_⟩
    rw [(onEntered_fields _ _ hp2).1]
    simp only [storedFlagSpec]
    simp [dget_dset_self]
  · -- was truthy, not overlapping: Exited
    rw [Except.ok.injEq, Prod.mk.injEq, Prod.mk.injEq, Prod.mk.injEq] at h'
    obtain ⟨hP, hO, hR, hE⟩ := h'
    subst hP hO hR hE
    refine ⟨rfl, rfl, ?_⟩
    rw [(onExited_fields _).1]
    simp only [storedFlagSpec]
    simp [dget_dset_self]
  · -- was truthy, overlapping: BeingCollided
    rw [Except.ok.injEq, Prod.mk.injEq, Prod.mk.injEq, Prod.mk.injEq] at h'
    obtain ⟨hP, hO, hR, hE⟩ := h'
    subst hP hO hR hE
    exact ⟨rfl, rfl, rfl⟩

/-- C1 witness: a first-contact pair (stored flag absent, overlap true) takes
the Entered row of the table: both entered callbacks fire once and the flag is
stored true. -/
theorem check_collision_transition_table_example :
    CollisionState.Entered =
      transitionSpec (truthyOB (dget cP.collisions cE.eid)) true ∧
    [(cP.eid, Cb.entered), (cE.eid, Cb.entered)] =
      callbacksSpec (truthyOB (dget cP.collisions cE.eid)) true cP.eid cE.eid ∧
    dget cP1.collisions cE.eid =
      storedFlagSpec (truthyOB (dget cP.collisions cE.eid)) true
        (dget cP.collisions cE.eid) :=
  check_collision_transition_table cP cE cP1 cE1 .Entered
    [(cP.eid, .entered), (cE.eid, .entered)] true rfl rfl

/-- C10: `check_collision(player, other)` stores pairwise collision state
one-sidedly on the player: the other entity's collisions dictionary comes out
exactly as it went in, the player's dictionary changes at most at the other
entity's identity, and replacing the other entity's dictionary by anything
changes nothing in the call except that same dictionary being carried
through — it is never read. -/
theorem check_collision_player_side_only
    (p o p' o' : Entity) (res : CollisionState) (evs : List (Nat × Cb))
    (c : List (Nat × Bool)) (k : Nat)
    (hk : k ≠ o.eid)
    (h : check_collision p o = .ok (p', o', res, evs)) :
    o'.collisions = o.collisions ∧
    dget p'.collisions k = dget p.collisions k ∧
    check_collision p { o with collisions := c } =
      .ok (p', { o' with collisions := c }, res, evs) := by
  unfold check_collision at h
  obtain ⟨being, hb, h'⟩ := exceptBind_ok h
  have hgoal3 : check_collision p { o with collisions := c } =
      (check_collision_core p { o with collisions := c }
        (dget p.collisions o.eid) being) := by
    unfold check_collision
    rw [show (({ o with collisions := c } : Entity)).eid = o.eid from rfl]
    rw [collideOf_collisions_congr, hb]
    rfl
  unfold check_collision_core at h'
  rw [hgoal3]
  unfold check_collision_core
  rw [show (({ o with collisions := c } : Entity)).eid = o.eid from rfl]
  split at h'
  · -- Entered branch
    rename_i hcond
    obtain ⟨p2, hp2, h'⟩ := exceptBind_ok h'
    obtain ⟨o2, ho2, h'⟩ := exceptBind_ok h'
    rw [Except.ok.injEq, Prod.mk.injEq, Prod.mk.injEq, Prod.mk.injEq] at h'
    obtain ⟨hP, hO, hR, hE⟩ := h'
    subst hP hO hR hE
    rw [if_pos hcond]
    refine ⟨(onEntered_fields _ _ ho2).1, ?_, ?_⟩
    · rw [(onEntered_fields _ _ hp2).1]
      rw [show ({ p with collisions := dset p.collisions o.eid being }
          : Entity).collisions = dset p.collisions o.eid being from rfl]
      exact dget_dset_other p.collisions o.eid k being hk
    · simp only [hp2, onEntered_collisions_congr o o2 c ho2]
      rfl
  · rename_i hcond1
    split at h'
    · -- Exited branch
      rename_i hcond2
      rw [Except.ok.injEq, Prod.mk.injEq, Prod.mk.injEq, Prod.mk.injEq] at h'
      obtain ⟨hP, hO, hR, hE⟩ := h'
      subst hP hO hR hE
      rw [if_neg hcond1, if_pos hcond2]
      refine ⟨(onExited_fields _).1, ?_, ?_⟩
      · rw [(onExited_fields _).1]
        rw [show ({ p with collisions := dset p.collisions o.eid being }
            : Entity).collisions = dset p.collisions o.eid being from rfl]
        exact dget_dset_other p.collisions o.eid k being hk
      · simp only [onExited_collisions_congr o c]
    · -- no-transition branch
      rename_i hcond2
      rw [Except.ok.injEq, Prod.mk.injEq, Prod.mk.injEq, Prod.mk.injEq] at h'
      obtain ⟨hP, hO, hR, hE⟩ := h'
      subst hP hO hR hE
      rw [if_neg hcond1, if_neg hcond2]
      exact ⟨rfl, rfl, rfl⟩

/-- C10 witness: on a concrete first-contact pair, the enemy's dictionary is
untouched, the player's dictionary is unchanged at a foreign key, and
replacing the enemy's dictionary only carries it through. -/
theorem check_collision_player_side_only_example :
    cE1.collisions = cE.collisions ∧
    dget cP1.collisions 5 = dget cP.collisions 5 ∧
    check_collision cP { cE with collisions := [(9, true)] } =
      .ok (cP1, { cE1 with collisions := [(9, true)] }, .Entered,
        [(cP.eid, Cb.entered), (cE.eid, Cb.entered)]) :=
  check_collision_player_side_only cP cE cP1 cE1 .Entered
    [(cP.eid, .entered), (cE.eid, .entered)] [(9, true)] 5 (by decide) rfl

lemma renderNoCheck_ok (m : MapData) (e e' : Entity)
    (h : renderNoCheck m e = .ok e') : e' = e := by
  unfold renderNoCheck at h
  rw [if_neg (by simp [truthyV2])] at h
  cases hr : get_rect e with
  | error u =>
    rw [hr] at h
    exact absurd h (fun hh => Except.noConfusion hh)
  | ok r =>
    rw [hr] at h
    have h2 : (Except.ok e : Except Unit Entity) = Except.ok e' := h
    rw [Except.ok.injEq] at h2
    exact h2.symm

/-- C5: when intersection checking is enabled and the one-step trajectory
rectangle intersects the map, `render` rolls the position back to the previous
position when one exists (otherwise keeps it), re-renders exactly once with
checking disabled — a call that performs no trajectory test and leaves the
state unchanged — and stops: the invocation count is exactly 2 and the entity
ends the frame at the rolled-back position. -/
theorem render_rollback_once (m : MapData) (e e' : Entity) (r : Rect) (n : Nat)
    (hr : get_rect e = .ok r)
    (hit : intersectd_with_rect m (make_trajectory e.direction r) = true)
    (h : renderChecked m e = .ok (e', n)) :
    n = 2 ∧
    e' = { e with pos := match e.prev_pos with
                         | some pv => pv
                         | none => e.pos } ∧
    renderNoCheck m e' = .ok e' := by
  unfold renderChecked at h
  rw [if_neg (by simp [truthyV2])] at h
  rw [hr] at h
  have h2 : (if intersectd_with_rect m (make_trajectory e.direction r) then
      (do
        let e2 ← renderNoCheck m { e with pos := match e.prev_pos with
                                                 | some pv => pv
                                                 | none => e.pos }
        Except.ok (e2, 2))
      else .ok (e, 1)) = .ok (e', n) := h
  rw [if_pos hit] at h2
  obtain ⟨e2, he2, h3⟩ := exceptBind_ok h2
  rw [Except.ok.injEq, Prod.mk.injEq] at h3
  obtain ⟨hE, hN⟩ := h3
  subst hE hN
  have heq := renderNoCheck_ok m _ _ he2
  subst heq
  exact ⟨rfl, rfl, he2⟩

/-- C5 witness: on a one-cell blocking map, the entity at (0, 0) with previous
position (5, 5) is rolled back there and rendered exactly twice. -/
theorem render_rollback_once_example :
    (2 : Nat) = 2 ∧
    ({ rE with pos := (some 5, some 5) } : Entity) =
      { rE with pos := match rE.prev_pos with
                       | some pv => pv
                       | none => rE.pos } ∧
    renderNoCheck rMap { rE with pos := (some 5, some 5) } =
      .ok { rE with pos := (some 5, some 5) } :=
  render_rollback_once rMap rE { rE with pos := (some 5, some 5) }
    ⟨0, 0, 0, 0⟩ 2 rfl rfl rfl

lemma renderChecked_fields (m : MapData) (e e' : Entity) (n : Nat)
    (h : renderChecked m e = .ok (e', n)) :
    e'.eid = e.eid ∧ e'.being_destroyed = e.being_destroyed := by
  unfold renderChecked at h
  rw [if_neg (by simp [truthyV2])] at h
  cases hr : get_rect e with
  | error u =>
    rw [hr] at h
    exact absurd h (fun hh => Except.noConfusion hh)
  | ok r =>
    rw [hr] at h
    have h2 : (if intersectd_with_rect m (make_trajectory e.direction r) then
        (do
          let e2 ← renderNoCheck m { e with pos := match e.prev_pos with
                                                   | some pv => pv
                                                   | none => e.pos }
          Except.ok (e2, 2))
        else .ok (e, 1)) = .ok (e', n) := h
    split at h2
    · obtain ⟨e2, he2, h3⟩ := exceptBind_ok h2
      rw [Except.ok.injEq, Prod.mk.injEq] at h3
      obtain ⟨hE, hN⟩ := h3
      subst hE
      have heq := renderNoCheck_ok m _ _ he2
      subst heq
      exact ⟨rfl, rfl⟩
    · rw [Except.ok.injEq, Prod.mk.injEq] at h2
      obtain ⟨hE, hN⟩ := h2
      subst hE
      exact ⟨rfl, rfl⟩

lemma renderAll_eids (m : MapData) (es : List Entity) :
    ∀ es', renderAll m es = .ok es' → eidsOf es' = eidsOf es := by
  induction es with
  | nil =>
    intro es' h
    have h2 : (Except.ok ([] : List Entity) : Except Unit (List Entity))
        = .ok es' := h
    rw [Except.ok.injEq] at h2
    subst h2
    rfl
  | cons e t ih =>
    intro es' h
    obtain ⟨pr, hpr, h⟩ := exceptBind_ok h
    obtain ⟨t', ht', h⟩ := exceptBind_ok h
    have h2 : (Except.ok (pr.1 :: t') : Except Unit (List Entity))
        = .ok es' := h
    rw [Except.ok.injEq] at h2
    subst h2
    have hf := renderChecked_fields m e pr.1 pr.2 (by rw [hpr])
    have hih := ih t' ht'
    simp only [eidsOf, List.map_cons] at hih ⊢
    rw [hf.1, hih]

lemma check_collision_other_eid (p o p' o' : Entity) (res : CollisionState)
    (evs : List (Nat × Cb))
    (h : check_collision p o = .ok (p', o', res, evs)) : o'.eid = o.eid := by
  unfold check_collision at h
  obtain ⟨being, hb, h'⟩ := exceptBind_ok h
  unfold check_collision_core at h'
  split at h'
  · obtain ⟨p2, hp2, h'⟩ := exceptBind_ok h'
    obtain ⟨o2, ho2, h'⟩ := exceptBind_ok h'
    rw [Except.ok.injEq, Prod.mk.injEq, Prod.mk.injEq, Prod.mk.injEq] at h'
    obtain ⟨hP, hO, hR, hE⟩ := h'
    subst hO
    exact (onEntered_fields _ _ ho2).2.1
  · split at h'
    · rw [Except.ok.injEq, Prod.mk.injEq, Prod.mk.injEq, Prod.mk.injEq] at h'
      obtain ⟨hP, hO, hR, hE⟩ := h'
      subst hO
      exact (onExited_fields _).2
    · rw [Except.ok.injEq, Prod.mk.injEq, Prod.mk.injEq, Prod.mk.injEq] at h'
      obtain ⟨hP, hO, hR, hE⟩ := h'
      subst hO
      rfl

lemma collideAll_eids (es : List Entity) :
    ∀ p p' es', collideAll p es = .ok (p', es') → eidsOf es' = eidsOf es := by
  induction es with
  | nil =>
    intro p p' es' h
    have h2 : (Except.ok (p, ([] : List Entity)) :
        Except Unit (Entity × List Entity)) = .ok (p', es') := h
    rw [Except.ok.injEq, Prod.mk.injEq] at h2
    obtain ⟨h3, h4⟩ := h2
    subst h4
    rfl
  | cons e t ih =>
    intro p p' es' h
    obtain ⟨r, hr, h⟩ := exceptBind_ok h
    obtain ⟨rest, hrest, h⟩ := exceptBind_ok h
    have h2 : (Except.ok ((rest.1, r.2.1 :: rest.2)) :
        Except Unit (Entity × List Entity)) = .ok (p', es') := h
    rw [Except.ok.injEq, Prod.mk.injEq] at h2
    obtain ⟨h3, h4⟩ := h2
    subst h4
    have heid := check_collision_other_eid p e r.1 r.2.1 r.2.2.1 r.2.2.2
      (by rw [hr])
    have hih := ih r.1 rest.1 rest.2 (by rw [hrest])
    simp only [eidsOf, List.map_cons] at hih ⊢
    rw [heid, hih]

lemma update_enemy_eids (m : MapData) (s s' : GameState)
    (h : update m s = .ok s') :
    eidsOf s'.enemies = eidsOf (prune s).enemies := by
  unfold update at h
  obtain ⟨s2, hs2, h⟩ := exceptBind_ok h
  unfold renderPhase at hs2
  obtain ⟨es, hes, hs2⟩ := exceptBind_ok hs2
  obtain ⟨pp, hpp, hs2⟩ := exceptBind_ok hs2
  have h2 : (Except.ok { prune s with enemies := es, player := pp.1 } :
      Except Unit GameState) = .ok s2 := hs2
  rw [Except.ok.injEq] at h2
  subst h2
  unfold update_collisions at h
  obtain ⟨r1, hr1, h⟩ := exceptBind_ok h
  obtain ⟨r2, hr2, h⟩ := exceptBind_ok h
  have h3 : (Except.ok (GameState.mk r2.1 r1.2 r2.2) : Except Unit GameState)
      = .ok s' := h
  rw [Except.ok.injEq] at h3
  subst h3
  have e1 : eidsOf r1.2 = eidsOf es :=
    collideAll_eids _ _ _ _ (by rw [hr1])
  have e2 : eidsOf es = eidsOf (prune s).enemies :=
    renderAll_eids m _ _ hes
  rw [show (GameState.mk r2.1 r1.2 r2.2).enemies = r1.2 from rfl]
  rw [e1, e2]

/-- C7: an enemy's entered callback only recolors it while its exited callback
marks it destroyed; within a tick the collision pass never removes an enemy
from the active set (the id list after the tick equals the id list right after
the sweep at the start of that tick), and an enemy that is destroyed during
tick N — as by its Exited transition — is still in the active set at the end
of tick N, is gone from the sweep that opens tick N+1, and is absent from the
active set from tick N+1 onward. -/
theorem enemy_exit_swept_next_tick
    (m : MapData) (s s' s'' : GameState) (e0 e1 : Entity)
    (hnd : (eidsOf s.enemies).Nodup)
    (h1 : update m s = .ok s') (h2 : update m s' = .ok s'')
    (he0 : e0.kind = .enemy)
    (hmem : e1 ∈ s'.enemies) (hdes : e1.being_destroyed = true) :
    (onCollisionEntered e0 = .ok (set_color (some .Green) none e0) ∧
     (set_color (some .Green) none e0).being_destroyed = e0.being_destroyed) ∧
    (onCollisionExited e0 = destroy (set_color (some .Blue) none e0) ∧
     (onCollisionExited e0).being_destroyed = true) ∧
    eidsOf s'.enemies = eidsOf (prune s).enemies ∧
    e1.eid ∉ eidsOf (prune s').enemies ∧
    e1.eid ∉ eidsOf s''.enemies := by
  have hX : onCollisionExited e0 = destroy (set_color (some .Blue) none e0) := by
    simp [onCollisionExited, he0]
  have hEq1 := update_enemy_eids m s s' h1
  have hndS' : (eidsOf s'.enemies).Nodup := by
    rw [hEq1]
    have hsub : (List.map (fun e : Entity => e.eid)
        (List.filter (fun e => !e.being_destroyed) s.enemies)).Sublist
        (List.map (fun e : Entity => e.eid) s.enemies) :=
      List.Sublist.map (fun e => e.eid) (List.filter_sublist s.enemies)
    exact List.Nodup.sublist hsub hnd
  have hnotin : e1.eid ∉ eidsOf (prune s').enemies := by
    intro hin
    unfold prune eidsOf at hin
    obtain ⟨e2, he2mem, he2eid⟩ := List.mem_map.mp hin
    obtain ⟨he2mem', he2q⟩ := List.mem_filter.mp he2mem
    have he12 : e2 = e1 :=
      List.inj_on_of_nodup_map hndS' he2mem' hmem he2eid
    rw [he12, hdes] at he2q
    exact absurd he2q (by simp)
  refine ⟨⟨by simp [onCollisionEntered, he0], rfl⟩, ⟨hX, by rw [hX]; rfl⟩,
    hEq1, hnotin, ?_⟩
  rw [update_enemy_eids m s' s'' h2]
  exact hnotin

/-- C7 witness: the stored-flag-true, no-longer-overlapping pair goes through
Exited during tick N; the enemy is destroyed yet still in the active set after
tick N, and the sweep opening tick N+1 removes it for good. -/
theorem enemy_exit_swept_next_tick_example :
    (onCollisionEntered gE = .ok (set_color (some .Green) none gE) ∧
     (set_color (some .Green) none gE).being_destroyed = gE.being_destroyed) ∧
    (onCollisionExited gE = destroy (set_color (some .Blue) none gE) ∧
     (onCollisionExited gE).being_destroyed = true) ∧
    eidsOf gS1.enemies = eidsOf (prune gS).enemies ∧
    gE1.eid ∉ eidsOf (prune gS1).enemies ∧
    gE1.eid ∉ eidsOf gS2.enemies :=
  enemy_exit_swept_next_tick [] gS gS1 gS2 gE gE1 (by decide) rfl rfl rfl
    (by decide) rfl

lemma dropWhile_head_not (p : Char → Bool) (l : List Char) (c : Char)
    (h : (l.dropWhile p).head? = some c) : p c = false := by
  induction l with
  | nil => exact absurd h (by simp [List.dropWhile])
  | cons a t ih =>
    rw [List.dropWhile_cons] at h
    by_cases hpa : p a = true
    · rw [if_pos hpa] at h
      exact ih h
    · rw [if_neg hpa] at h
      simp only [List.head?_cons, Option.some.injEq] at h
      subst h
      exact Bool.not_eq_true _ |>.mp hpa

lemma stripLine_getLast_not_space (l : List Char) (c : Char)
    (h : (stripLine l).getLast? = some c) : pyIsSpace c = false := by
  unfold stripLine at h
  rw [List.getLast?_reverse] at h
  exact dropWhile_head_not _ _ _ h

lemma pyIndex_mem {α : Type} (l : List α) (i : Int) (a : α)
    (h : pyIndex l i = some a) : a ∈ l := by
  unfold pyIndex at h
  split at h
  · exact List.get?_mem h
  · split at h
    · exact List.get?_mem h
    · exact absurd h (fun hh => Option.noConfusion hh)

lemma pyIndex_neg_one {α : Type} (row : List α) (hne : row ≠ []) :
    pyIndex row (-1) = row.getLast? := by
  unfold pyIndex
  rw [if_neg (by norm_num)]
  rw [if_pos (by
    have := List.length_pos.mpr hne
    simp
    omega)]
  rw [List.getLast?_eq_get?]
  norm_num

lemma load_map_neg_one_blocked (lines : List (List Char)) (y : Int) :
    intersectd_with_pos (load_map lines) (-1) y = true := by
  unfold intersectd_with_pos
  cases hrow : pyIndex (load_map lines) y with
  | none => rfl
  | some row =>
    have hmem : row ∈ load_map lines := pyIndex_mem _ _ _ hrow
    obtain ⟨raw, _hraw, hstrip⟩ := List.mem_map.mp hmem
    show (match pyIndex row (-1) with
          | none => true
          | some c => !(pyIsSpace c)) = true
    by_cases hne : row = []
    · subst hne
      rfl
    · rw [pyIndex_neg_one row hne]
      cases hlast : row.getLast? with
      | none => exact absurd (List.getLast?_eq_none.mp hlast) hne
      | some c =>
        have hns : pyIsSpace c = false :=
          stripLine_getLast_not_space raw c (by rw [hstrip]; exact hlast)
        show (!(pyIsSpace c)) = true
        rw [hns]
        rfl

/-- C3 counterexample: on the loaded one-row map "a b", the point (1, -1)
lies outside map bounds (its row index is negative), yet the query returns
false, not true: the negative row index wraps Python-style to the last row and
lands on the blank middle cell. -/
theorem intersectd_with_out_of_bounds_cex :
    ¬ inBoundsSpec (load_map [['a', ' ', 'b']]) 1 (-1) ∧
    intersectd_with_pos (load_map [['a', ' ', 'b']]) 1 (-1) = false := by
  refine ⟨?_, rfl⟩
  intro hin
  exact absurd hin.1 (by norm_num)

/-- C3 amended: the point query is decided by the cells Python indexing
actually reaches — for a point whose row and column reads both succeed
(including negative indices wrapping to the end), the result is exactly
whether that cell is non-blank; a read that raises `IndexError` at either
level (index at or past the length, or below minus the length) yields true;
and on a map built by `load`, whose rows are stripped of trailing whitespace,
a query at x = -1 is blocked for every y. -/
theorem intersectd_with_bounds_and_wrap
    (data : MapData) (x y : Int) (row : List Char) (cc : Char)
    (d2 : MapData) (x2 y2 : Int)
    (d3 : MapData) (x3 y3 : Int) (row3 : List Char)
    (lines : List (List Char)) (y4 : Int)
    (hrow : pyIndex data y = some row) (hc : pyIndex row x = some cc)
    (h2 : pyIndex d2 y2 = none)
    (h3a : pyIndex d3 y3 = some row3) (h3b : pyIndex row3 x3 = none) :
    intersectd_with_pos data x y = !(pyIsSpace cc) ∧
    intersectd_with_pos d2 x2 y2 = true ∧
    intersectd_with_pos d3 x3 y3 = true ∧
    intersectd_with_pos (load_map lines) (-1) y4 = true := by
  refine ⟨?_, ?_, ?_, load_map_neg_one_blocked lines y4⟩
  · unfold intersectd_with_pos
    rw [hrow]
    show (match pyIndex row x with
          | none => true
          | some c => !(pyIsSpace c)) = !(pyIsSpace cc)
    rw [hc]
  · unfold intersectd_with_pos
    rw [h2]
  · unfold intersectd_with_pos
    rw [h3a]
    show (match pyIndex row3 x3 with
          | none => true
          | some c => !(pyIsSpace c)) = true
    rw [h3b]

/-- C3 witness: a blocked in-bounds cell, a row read past the end, a column
read past the end, and the always-blocked x = -1 column of a loaded map. -/
theorem intersectd_with_bounds_and_wrap_example :
    intersectd_with_pos [['#']] 0 0 = !(pyIsSpace '#') ∧
    intersectd_with_pos [] 0 7 = true ∧
    intersectd_with_pos [['#']] 5 0 = true ∧
    intersectd_with_pos (load_map [['a']]) (-1) 0 = true :=
  intersectd_with_bounds_and_wrap [['#']] 0 0 ['#'] '#' [] 0 7 [['#']] 5 0
    ['#'] [['a']] 0 rfl rfl rfl rfl rfl
